import Mathlib

/-!
Verification of the call-identity correlation engine and call-setup
orchestration pipeline of the daily-plivo servers.

The embedding models, from the source:
- `call_to_sip_mapping` (a Python dict from correlation keys to records) as an
  association list in insertion order; dict assignment replaces the value of an
  existing key in place, otherwise appends at the end, matching Python dict
  semantics.
- `store_call_mapping` / `get_call_mapping` from `plivo_handlers.py`.
- The resolution chain of `plivo_answer_handler` (call_id, then call_uuid, then
  to_number with and without a leading `+`, then a linear scan over stored
  phone numbers).
- `plivo_hangup_handler`, the `/store-call-mapping` endpoint, the outbound-call
  handler of `server.py` and the inbound-call handler of
  `inbound-call/server.py`.

Form and query fields that Python receives as `None` are modelled as the empty
string: every branch of the handlers tests them only for truthiness
(`if call_id:` style), for which `None` and `""` coincide.  External network
and process effects are supplied by an environment record (the oracle results
of each collaborator call), and the handlers additionally emit a trace of
stage events so that ordering claims can be stated.
-/

/-- A stored routing record: the value side of `call_to_sip_mapping`
(`{"sip_uri": ..., "phone_number": ...}`). -/
structure CallRecord where
  sip_uri : String
  phone_number : String
deriving DecidableEq, Repr

/-- The in-memory store `call_to_sip_mapping`, in insertion order. -/
abbrev IdentityMap := List (String × CallRecord)

/-- Python's `s.lstrip('+')`: drop every leading `+` character. -/
def lstripPlus (s : String) : String :=
  String.mk (s.data.dropWhile (fun ch => ch = '+'))

/-- `store_call_mapping(call_id, sip_uri, phone_number)`: dict assignment.
If the key is present its value is replaced in place, otherwise the pair is
appended at the end (Python dict update semantics). -/
def store_call_mapping (call_id sip_uri phone_number : String) : IdentityMap → IdentityMap
  | [] => [(call_id, ⟨sip_uri, phone_number⟩)]
  | kv :: rest =>
      if kv.1 = call_id then (call_id, ⟨sip_uri, phone_number⟩) :: rest
      else kv :: store_call_mapping call_id sip_uri phone_number rest

/-- `get_call_mapping(call_uuid)`: `call_to_sip_mapping.get(call_uuid)`. -/
def get_call_mapping (call_uuid : String) : IdentityMap → Option CallRecord
  | [] => none
  | kv :: rest => if kv.1 = call_uuid then some kv.2 else get_call_mapping call_uuid rest

/-- `del call_to_sip_mapping[call_uuid]` guarded by `if call_uuid in ...`:
removes the entry for the key when present, otherwise leaves the map alone. -/
def remove_mapping (call_uuid : String) : IdentityMap → IdentityMap
  | [] => []
  | kv :: rest => if kv.1 = call_uuid then rest else kv :: remove_mapping call_uuid rest

/-- The boolean test on line 96 of `plivo_handlers.py`:
`stored_phone == to_number or stored_phone == to_number.lstrip('+') or
stored_phone.lstrip('+') == to_number`. -/
def phone_scan_match (stored_phone to_number : String) : Bool :=
  stored_phone == to_number || stored_phone == lstripPlus to_number
    || lstripPlus stored_phone == to_number

/-- The last-resort loop of `plivo_answer_handler`: walk the stored records in
insertion order and return the first whose stored phone number matches
`to_number` up to a leading `+`. -/
def scan_by_phone (to_number : String) : IdentityMap → Option CallRecord
  | [] => none
  | kv :: rest =>
      if phone_scan_match kv.2.phone_number to_number then some kv.2
      else scan_by_phone to_number rest

/-- The staged lookup of `plivo_answer_handler` (lines 67-99): try the local
`call_id` from the query string, then the carrier `CallUUID`, then the `To`
number as given and with leading `+` stripped, then the phone-number scan.
Each stage runs only when the previous ones missed and its own input is
non-empty (Python truthiness). -/
def answer_resolve (call_uuid call_id to_number : String) (m : IdentityMap) :
    Option CallRecord :=
  let m1 := if call_id ≠ "" then get_call_mapping call_id m else none
  let m2 :=
    match m1 with
    | some r => some r
    | none => if call_uuid ≠ "" then get_call_mapping call_uuid m else none
  let m3 :=
    match m2 with
    | some r => some r
    | none =>
        if to_number ≠ "" then
          match get_call_mapping to_number m with
          | some r => some r
          | none => get_call_mapping (lstripPlus to_number) m
        else none
  match m3 with
  | some r => some r
  | none => scan_by_phone to_number m

/-! ### The resolution chain as the specification words it (for claim C1) -/

/-- Spec step 1: exact lookup on the local call ID, if non-empty. -/
def resolve_step1 (call_id : String) (m : IdentityMap) : Option CallRecord :=
  if call_id ≠ "" then get_call_mapping call_id m else none

/-- Spec step 2: exact lookup on the carrier call UUID, if non-empty. -/
def resolve_step2 (call_uuid : String) (m : IdentityMap) : Option CallRecord :=
  if call_uuid ≠ "" then get_call_mapping call_uuid m else none

/-- Spec step 3: exact lookup on `toNumber` as given, if non-empty. -/
def resolve_step3 (to_number : String) (m : IdentityMap) : Option CallRecord :=
  if to_number ≠ "" then get_call_mapping to_number m else none

/-- Spec step 4: exact lookup on `toNumber` with the leading `+` stripped
(taken, like step 3, only for a non-empty `toNumber`). -/
def resolve_step4 (to_number : String) (m : IdentityMap) : Option CallRecord :=
  if to_number ≠ "" then get_call_mapping (lstripPlus to_number) m else none

/-- Spec-side equality of phone numbers after stripping a leading `+` from
whichever side has one. -/
def strip_plus_eq (stored queried : String) : Bool :=
  stored == queried || lstripPlus stored == queried || stored == lstripPlus queried

/-- Spec step 5: the first stored record, in scan order, whose stored
`phoneNumber` equals `toNumber` up to a leading `+` on either side. -/
def resolve_step5 (to_number : String) (m : IdentityMap) : Option CallRecord :=
  (m.find? (fun kv => strip_plus_eq kv.2.phone_number to_number)).map Prod.snd

/-- The prioritized fallback chain exactly as the specification describes
`resolve`: the first hit among the five steps, `NotFound` (here `none`) when
all five miss. -/
def resolve_spec (call_uuid call_id to_number : String) (m : IdentityMap) :
    Option CallRecord :=
  match resolve_step1 call_id m with
  | some r => some r
  | none =>
    match resolve_step2 call_uuid m with
    | some r => some r
    | none =>
      match resolve_step3 to_number m with
      | some r => some r
      | none =>
        match resolve_step4 to_number m with
        | some r => some r
        | none => resolve_step5 to_number m

/-! ### Signaling documents (Plivo XML), as built by the handlers -/

/-- The `<Speak>...<Hangup/>` terminal XML template shared by every error
branch of the handlers, with its message spliced in. -/
def speak_hangup_xml (message : String) : String :=
  "<?xml version=\"1.0\" encoding=\"UTF-8\"?>\n<Response>\n    <Speak>"
    ++ message ++ "</Speak>\n    <Hangup/>\n</Response>"

/-- The `<Dial>` XML template shared by `plivo_answer_handler` and
`handle_inbound_call`: bridge the call to the SIP destination with the given
caller identity and the fixed `timeout="30"`. -/
def dial_xml (caller_id sip_uri : String) : String :=
  "<?xml version=\"1.0\" encoding=\"UTF-8\"?>\n<Response>\n    <Dial callerId=\""
    ++ caller_id ++ "\" timeout=\"30\">\n        <User>" ++ sip_uri
    ++ "</User>\n    </Dial>\n</Response>"

/-- The fixed terminal document of `plivo_answer_handler`'s miss and
exception branches. -/
def answer_error_xml : String :=
  speak_hangup_xml "Sorry, there was an error connecting your call."

/-- A well-formed signaling document: either a dial instruction or a
spoken-message-then-hangup instruction. -/
def is_signaling_doc (x : String) : Prop :=
  (∃ caller_id sip_uri, x = dial_xml caller_id sip_uri) ∨
  (∃ message, x = speak_hangup_xml message)

/-- `plivo_answer_handler`: resolve the call through the staged lookup; on a
hit return the dial document for the record's SIP URI with the webhook's
`From` number as caller identity, on a miss (or on any caught exception)
return the fixed error document. -/
def plivo_answer_handler (call_uuid from_number to_number call_id : String)
    (m : IdentityMap) : String :=
  match answer_resolve call_uuid call_id to_number m with
  | some r => dial_xml from_number r.sip_uri
  | none => answer_error_xml

/-- `plivo_hangup_handler`: delete the entry under the webhook's `CallUUID`
when present and acknowledge with `{"status": "received"}` either way. -/
def plivo_hangup_handler (call_uuid : String) (m : IdentityMap) :
    IdentityMap × String :=
  (remove_mapping call_uuid m, "received")

/-! ### Server handlers: environments, stage events, HTTP results -/

/-- Truthiness of an optional request field (`None` and `""` are falsy). -/
def field_truthy : Option String → Bool
  | none => false
  | some s => !(s == "")

/-- A stage event emitted by an orchestration run, in execution order. -/
inductive Ev where
  | createRoom
  | mintToken
  | getSipUri
  | launchBot
  | settle (seconds : Nat)
  | placeCall
  | mapWrite (key : String)
deriving DecidableEq, Repr

/-- `{url, name}` of a created Daily room. -/
structure RoomHandle where
  url : String
  name : String
deriving DecidableEq, Repr

/-- Result of `create_daily_token`: a token string, the Python `None`
(`result.get("token")` missing), or an `{"error": msg}` dictionary. -/
inductive TokenResult where
  | token (t : String)
  | missingToken
  | err (msg : String)
deriving DecidableEq, Repr

/-- Result of the `/store-call-mapping` endpoint: the success body
`{"status": "success", "call_id": ...}` or an `HTTPException`. -/
inductive StoreEndpointResult where
  | ok (call_id : String)
  | httpError (status : Nat) (detail : String)
deriving DecidableEq, Repr

/-- `store_call_mapping_endpoint`: read the three JSON fields; when any is
missing or falsy, the internally raised 400 is caught by the handler's own
`except Exception` and re-raised as a 500 whose detail is the `str()` of the
400; otherwise write the record under `call_id` and return the success body. -/
def store_call_mapping_endpoint (call_id sip_uri phone_number : Option String)
    (m : IdentityMap) : StoreEndpointResult × IdentityMap :=
  if field_truthy call_id && field_truthy sip_uri && field_truthy phone_number then
    let ci := call_id.getD ""
    let su := sip_uri.getD ""
    let pn := phone_number.getD ""
    (StoreEndpointResult.ok ci, store_call_mapping ci su pn m)
  else
    (StoreEndpointResult.httpError 500 "400: Missing required fields", m)

/-- Oracle results of the collaborator calls made by `/outbound-call`:
room creation, token minting, SIP-URI lookup, bot-file existence, process
spawn, Plivo credential presence, and the Plivo `calls.create` request
(`some uuid?` on success, carrying the extracted call identifier when the
response exposes one; `none` when the request raises). -/
structure OutboundEnv where
  room_response : Option RoomHandle
  token_result : TokenResult
  sip_uri_result : Option String
  bot_path : String
  bot_exists : Bool
  spawn_ok : Bool
  spawn_err : String
  creds_ok : Bool
  call_result : Option (Option String)
  call_err : String
deriving Repr

/-- Result of `/outbound-call`: the JSON success body or an `HTTPException`. -/
inductive OutboundResult where
  | httpError (status : Nat) (detail : String)
  | success (message room_url room_name : String)
deriving DecidableEq, Repr

/-- The outer `except Exception` of `handle_outbound_call`: every
`HTTPException(status, detail)` raised inside the handler is caught and
re-raised as a 500 whose detail prefixes `str(e)` (`"{status}: {detail}"`)
with the handler's own message. -/
def outbound_wrap (status : Nat) (detail : String) : OutboundResult :=
  OutboundResult.httpError 500
    ("Error processing outbound call: " ++ toString status ++ ": " ++ detail)

/-- `handle_outbound_call` of `server.py`: validate the target number, create
the Daily room, mint a token, resolve the SIP URI, launch the bot and wait the
long settling delay, check Plivo credentials, place the Plivo call, and only
then write the IdentityMap entries (target number with and without `+`, plus
the returned call identifier when truthy).  Returns the HTTP result, the trace
of stage events, and the final map. -/
def handle_outbound_call (env : OutboundEnv) (phone_number? : Option String)
    (m : IdentityMap) : OutboundResult × List Ev × IdentityMap :=
  if !(field_truthy phone_number?) then
    (outbound_wrap 400 "Missing required parameter: phone_number", [], m)
  else
    let phone_number := phone_number?.getD ""
    match env.room_response with
    | none => (outbound_wrap 500 "Failed to create Daily room", [Ev.createRoom], m)
    | some room =>
      match env.token_result with
      | TokenResult.err msg =>
          (outbound_wrap 500 ("Failed to create Daily token: " ++ msg),
           [Ev.createRoom, Ev.mintToken], m)
      | TokenResult.missingToken =>
          (outbound_wrap 500 "Failed to create Daily token: Unknown error",
           [Ev.createRoom, Ev.mintToken], m)
      | TokenResult.token t =>
        if t = "" then
          (outbound_wrap 500 "Failed to create Daily token: Unknown error",
           [Ev.createRoom, Ev.mintToken], m)
        else
          match env.sip_uri_result with
          | none =>
              (outbound_wrap 500 "Failed to get Daily SIP URI",
               [Ev.createRoom, Ev.mintToken, Ev.getSipUri], m)
          | some sip_uri =>
            if !env.bot_exists then
              (outbound_wrap 500
                 ("Failed to start bot process: 500: Bot file not found: " ++ env.bot_path),
               [Ev.createRoom, Ev.mintToken, Ev.getSipUri], m)
            else if !env.spawn_ok then
              (outbound_wrap 500 ("Failed to start bot process: " ++ env.spawn_err),
               [Ev.createRoom, Ev.mintToken, Ev.getSipUri], m)
            else
              let tr := [Ev.createRoom, Ev.mintToken, Ev.getSipUri,
                         Ev.launchBot, Ev.settle 5]
              if !env.creds_ok then
                (outbound_wrap 500 "Plivo credentials not configured", tr, m)
              else
                match env.call_result with
                | none =>
                    (outbound_wrap 500 ("Failed to initiate Plivo call: " ++ env.call_err),
                     tr ++ [Ev.placeCall], m)
                | some call_uuid? =>
                  let m1 := store_call_mapping phone_number sip_uri phone_number m
                  let phone_no_plus := lstripPlus phone_number
                  let m2 := store_call_mapping phone_no_plus sip_uri phone_number m1
                  let ok := OutboundResult.success
                    ("Outbound call initiated to " ++ phone_number) room.url room.name
                  match call_uuid? with
                  | some call_uuid =>
                    if call_uuid ≠ "" then
                      (ok,
                       tr ++ [Ev.placeCall, Ev.mapWrite phone_number,
                              Ev.mapWrite phone_no_plus, Ev.mapWrite call_uuid],
                       store_call_mapping call_uuid sip_uri phone_number m2)
                    else
                      (ok,
                       tr ++ [Ev.placeCall, Ev.mapWrite phone_number,
                              Ev.mapWrite phone_no_plus], m2)
                  | none =>
                      (ok,
                       tr ++ [Ev.placeCall, Ev.mapWrite phone_number,
                              Ev.mapWrite phone_no_plus], m2)

/-- Oracle results of the collaborator calls made by `/plivo-inbound`. -/
structure InboundEnv where
  room_response : Option RoomHandle
  token_result : TokenResult
  sip_uri_result : Option String
  bot_exists : Bool
  spawn_ok : Bool
deriving Repr

/-- `handle_inbound_call` of `inbound-call/server.py`: require a `CallUUID`,
create the room, mint a token, resolve the SIP URI (each failure short-circuits
to its terminal spoken-error document), store the record under the call UUID
and — when the caller's number is truthy — under that number with and without
the leading `+`, best-effort launch the bot with the short settling delay, and
return the dial document using the caller's number (or, when absent, the
called number) as caller identity.  Returns the XML body, the final map, and
the trace of stage events. -/
def handle_inbound_call (env : InboundEnv) (call_uuid from_number to_number : String)
    (m : IdentityMap) : String × IdentityMap × List Ev :=
  if call_uuid = "" then
    (speak_hangup_xml "Sorry, there was an error processing your call.", m, [])
  else
    match env.room_response with
    | none =>
        (speak_hangup_xml
           "Sorry, we're unable to connect your call at this time. Please try again later.",
         m, [Ev.createRoom])
    | some _room =>
      match env.token_result with
      | TokenResult.err _ =>
          (speak_hangup_xml "Sorry, there was an error setting up your call.",
           m, [Ev.createRoom, Ev.mintToken])
      | TokenResult.missingToken =>
          (speak_hangup_xml "Sorry, there was an error setting up your call.",
           m, [Ev.createRoom, Ev.mintToken])
      | TokenResult.token t =>
        if t = "" then
          (speak_hangup_xml "Sorry, there was an error setting up your call.",
           m, [Ev.createRoom, Ev.mintToken])
        else
          match env.sip_uri_result with
          | none =>
              (speak_hangup_xml
                 "Sorry, we're unable to connect your call. Please try again later.",
               m, [Ev.createRoom, Ev.mintToken, Ev.getSipUri])
          | some sip_uri =>
            let m1 := store_call_mapping call_uuid sip_uri from_number m
            let m2 :=
              if from_number ≠ "" then
                store_call_mapping (lstripPlus from_number) sip_uri from_number
                  (store_call_mapping from_number sip_uri from_number m1)
              else m1
            let tr := [Ev.createRoom, Ev.mintToken, Ev.getSipUri]
              ++ (if env.bot_exists && env.spawn_ok then [Ev.launchBot, Ev.settle 2] else [])
            let caller_id := if from_number ≠ "" then from_number else to_number
            (dial_xml caller_id sip_uri, m2, tr)

/-- The mocked collaborator results of the end-to-end inbound scenario:
room `{url: "https://r/x", name: "x"}`, token `"tok"`, SIP URI `"sip:x@y"`. -/
def inbound_demo_env (bot_exists spawn_ok : Bool) : InboundEnv :=
  ⟨some ⟨"https://r/x", "x"⟩, TokenResult.token "tok", some "sip:x@y", bot_exists, spawn_ok⟩

/-! ### Map lemmas -/

theorem get_store_self (k s p : String) (m : IdentityMap) :
    get_call_mapping k (store_call_mapping k s p m) = some ⟨s, p⟩ := by
  induction m with
  | nil => simp [store_call_mapping, get_call_mapping]
  | cons kv rest ih =>
    by_cases h : kv.1 = k
    · simp [store_call_mapping, get_call_mapping, h]
    · simp [store_call_mapping, get_call_mapping, h, ih]

theorem get_store_other (k s p k' : String) (m : IdentityMap) (hne : k' ≠ k) :
    get_call_mapping k' (store_call_mapping k s p m) = get_call_mapping k' m := by
  induction m with
  | nil => simp [store_call_mapping, get_call_mapping, Ne.symm hne]
  | cons kv rest ih =>
    by_cases h : kv.1 = k
    · simp [store_call_mapping, get_call_mapping, h, Ne.symm hne]
    · by_cases h2 : kv.1 = k'
      · simp [store_call_mapping, get_call_mapping, h, h2, hne]
      · simp [store_call_mapping, get_call_mapping, h, h2, ih]

theorem get_of_not_mem_keys (k : String) (m : IdentityMap)
    (h : k ∉ m.map Prod.fst) : get_call_mapping k m = none := by
  induction m with
  | nil => rfl
  | cons kv rest ih =>
    simp only [List.map_cons, List.mem_cons] at h
    push_neg at h
    simp [get_call_mapping, Ne.symm h.1, ih h.2]

theorem get_remove_self (k : String) (m : IdentityMap)
    (h : (m.map Prod.fst).Nodup) :
    get_call_mapping k (remove_mapping k m) = none := by
  induction m with
  | nil => rfl
  | cons kv rest ih =>
    simp only [List.map_cons, List.nodup_cons] at h
    by_cases hk : kv.1 = k
    · subst hk
      simpa [remove_mapping] using get_of_not_mem_keys _ _ h.1
    · simp [remove_mapping, get_call_mapping, hk, ih h.2]

theorem get_remove_other (u k : String) (m : IdentityMap) (hne : k ≠ u) :
    get_call_mapping k (remove_mapping u m) = get_call_mapping k m := by
  induction m with
  | nil => rfl
  | cons kv rest ih =>
    by_cases hu : kv.1 = u
    · simp [remove_mapping, get_call_mapping, hu, Ne.symm hne]
    · by_cases hk : kv.1 = k
      · simp [remove_mapping, get_call_mapping, hu, hk, hne]
      · simp [remove_mapping, get_call_mapping, hu, hk, ih]

theorem phone_scan_match_eq (a t : String) :
    phone_scan_match a t = strip_plus_eq a t := by
  unfold phone_scan_match strip_plus_eq
  cases a == t <;> cases a == lstripPlus t <;> cases lstripPlus a == t <;> rfl

theorem scan_by_phone_eq_step5 (t : String) (m : IdentityMap) :
    scan_by_phone t m = resolve_step5 t m := by
  induction m with
  | nil => rfl
  | cons kv rest ih =>
    by_cases h : strip_plus_eq kv.2.phone_number t
    · simp [scan_by_phone, resolve_step5, phone_scan_match_eq, h, List.find?_cons_of_pos]
    · simp only [scan_by_phone, phone_scan_match_eq, h, if_false, Bool.false_eq_true,
        ite_false, ih]
      simp [resolve_step5, List.find?_cons_of_neg, h]

theorem answer_resolve_eq_spec (u c t : String) (m : IdentityMap) :
    answer_resolve u c t m = resolve_spec u c t m := by
  simp only [answer_resolve, resolve_spec, resolve_step1, resolve_step2, resolve_step3,
    resolve_step4, ← scan_by_phone_eq_step5]
  by_cases hc : c = "" <;> by_cases hu : u = "" <;> by_cases ht : t = "" <;>
    simp only [hc, hu, ht, ne_eq, not_true_eq_false, not_false_eq_true, if_true, if_false,
      ite_true, ite_false] <;>
  (try cases get_call_mapping c m) <;>
  (try cases get_call_mapping u m) <;>
  (try cases get_call_mapping t m) <;>
  (try cases get_call_mapping (lstripPlus t) m) <;>
  rfl

theorem resolve_spec_eq_none_iff (u c t : String) (m : IdentityMap) :
    resolve_spec u c t m = none ↔
      resolve_step1 c m = none ∧ resolve_step2 u m = none ∧ resolve_step3 t m = none ∧
      resolve_step4 t m = none ∧ resolve_step5 t m = none := by
  unfold resolve_spec
  cases h1 : resolve_step1 c m <;> cases h2 : resolve_step2 u m <;>
    cases h3 : resolve_step3 t m <;> cases h4 : resolve_step4 t m <;>
    cases h5 : resolve_step5 t m <;> simp_all

/-- Claim C1: for every IdentityMap state and every triple of identifiers
supplied to the answer webhook, the handler's resolution returns the first hit
of the prioritized fallback chain — exact lookup on the local call ID if
non-empty, else on the carrier call UUID if non-empty, else on `toNumber` as
given if non-empty, else on `toNumber` with the leading `+` stripped, else the
first stored record in scan order whose stored phone number equals `toNumber`
after stripping a leading `+` from whichever side has one — and it reports
`NotFound` (`none`) if and only if all five steps miss. -/
theorem answer_resolve_fallback_chain (call_uuid call_id to_number : String)
    (m : IdentityMap) :
    answer_resolve call_uuid call_id to_number m =
      resolve_spec call_uuid call_id to_number m ∧
    (answer_resolve call_uuid call_id to_number m = none ↔
      resolve_step1 call_id m = none ∧ resolve_step2 call_uuid m = none ∧
      resolve_step3 to_number m = none ∧ resolve_step4 to_number m = none ∧
      resolve_step5 to_number m = none) := by
  refine ⟨answer_resolve_eq_spec _ _ _ _, ?_⟩
  rw [answer_resolve_eq_spec]
  exact resolve_spec_eq_none_iff _ _ _ _

/-- Concrete instantiation of `answer_resolve_fallback_chain` at a map whose
single record is found only by the final phone-number scan. -/
theorem answer_resolve_fallback_chain_witness :
    answer_resolve "u9" "" "+15559999999" [("k", ⟨"sip:z", "15559999999"⟩)] =
      resolve_spec "u9" "" "+15559999999" [("k", ⟨"sip:z", "15559999999"⟩)] ∧
    (answer_resolve "u9" "" "+15559999999" [("k", ⟨"sip:z", "15559999999"⟩)] = none ↔
      resolve_step1 "" [("k", ⟨"sip:z", "15559999999"⟩)] = none ∧
      resolve_step2 "u9" [("k", ⟨"sip:z", "15559999999"⟩)] = none ∧
      resolve_step3 "+15559999999" [("k", ⟨"sip:z", "15559999999"⟩)] = none ∧
      resolve_step4 "+15559999999" [("k", ⟨"sip:z", "15559999999"⟩)] = none ∧
      resolve_step5 "+15559999999" [("k", ⟨"sip:z", "15559999999"⟩)] = none) :=
  answer_resolve_fallback_chain "u9" "" "+15559999999" [("k", ⟨"sip:z", "15559999999"⟩)]

/-- Claim C2: resolution is insensitive to a leading `+` on the queried
number.  A record stored under key `"+15551234567"` with that stored phone
number is found with empty call ID and call UUID both for `toNumber`
`"15551234567"` and `"+15551234567"`; and, via the final scan step, a record
whose stored number lacks the `+` is found when queried with the `+`-prefixed
number and vice versa (the keys `"uuid-key"` force the scan). -/
theorem resolve_plus_prefix_insensitive (s : String) :
    answer_resolve "" "" "15551234567" [("+15551234567", ⟨s, "+15551234567"⟩)] =
      some ⟨s, "+15551234567"⟩ ∧
    answer_resolve "" "" "+15551234567" [("+15551234567", ⟨s, "+15551234567"⟩)] =
      some ⟨s, "+15551234567"⟩ ∧
    answer_resolve "" "" "+15551234567" [("uuid-key", ⟨s, "15551234567"⟩)] =
      some ⟨s, "15551234567"⟩ ∧
    answer_resolve "" "" "15551234567" [("uuid-key", ⟨s, "+15551234567"⟩)] =
      some ⟨s, "+15551234567"⟩ :=
  ⟨rfl, rfl, rfl, rfl⟩

/-- Claim C3: the answer webhook always produces a well-formed signaling
document (it never propagates an exception): on a resolution hit it is the
dial document bridging the call to the record's SIP URI with the webhook's
`From` number as caller identity and the fixed 30-second answer timeout, and
on a resolution miss it is the fixed terminal error-connecting document. -/
theorem answer_handler_always_returns_doc
    (call_uuid from_number to_number call_id : String) (m : IdentityMap) :
    is_signaling_doc (plivo_answer_handler call_uuid from_number to_number call_id m) ∧
    ((∃ r, answer_resolve call_uuid call_id to_number m = some r ∧
        plivo_answer_handler call_uuid from_number to_number call_id m =
          dial_xml from_number r.sip_uri) ∨
      (answer_resolve call_uuid call_id to_number m = none ∧
        plivo_answer_handler call_uuid from_number to_number call_id m =
          answer_error_xml)) := by
  unfold plivo_answer_handler
  cases h : answer_resolve call_uuid call_id to_number m with
  | some r =>
      exact ⟨Or.inl ⟨from_number, r.sip_uri, rfl⟩, Or.inl ⟨r, rfl, rfl⟩⟩
  | none =>
      exact ⟨Or.inr ⟨"Sorry, there was an error connecting your call.", rfl⟩,
        Or.inr ⟨rfl, rfl⟩⟩

/-- Counterexample to claim C4: for a record stored only under the call-ID
key `"abc"`, supplying `"abc"` in the call-UUID position (other arguments
empty) does NOT miss — the UUID lookup step consults the same
`call_to_sip_mapping` dictionary and hits. -/
theorem uuid_position_lookup_hits :
    answer_resolve "abc" "" "" [("abc", ⟨"sip:room@example.com", "+15550000000"⟩)] =
      some ⟨"sip:room@example.com", "+15550000000"⟩ ∧
    answer_resolve "abc" "" "" [("abc", ⟨"sip:room@example.com", "+15550000000"⟩)] ≠
      none :=
  ⟨rfl, by decide⟩

/-- Claim C4 as amended: for a record stored only under local call-ID
`"abc"`, a resolve supplying `"abc"` in the call-ID position (other arguments
empty) hits, and a resolve supplying `"abc"` in the call-UUID position (other
arguments empty) also hits: the call-ID and call-UUID lookup steps consult
one shared key space (the single `call_to_sip_mapping` dictionary), so a key
written as a call-ID is also found via the UUID lookup step. -/
theorem call_id_and_uuid_share_keyspace (s p : String) :
    answer_resolve "" "abc" "" [("abc", ⟨s, p⟩)] = some ⟨s, p⟩ ∧
    answer_resolve "abc" "" "" [("abc", ⟨s, p⟩)] = some ⟨s, p⟩ :=
  ⟨rfl, rfl⟩

/-- Claim C5: the hangup webhook removes exactly the entry keyed by the given
call UUID (its lookup afterwards reports `NotFound`), leaves the entry under
every other key unchanged, and returns the `{"status": "received"}`
acknowledgment whether or not an entry existed. -/
theorem hangup_removes_only_uuid_key (m : IdentityMap) (call_uuid : String)
    (h : (m.map Prod.fst).Nodup) :
    get_call_mapping call_uuid (plivo_hangup_handler call_uuid m).1 = none ∧
    (∀ k, k ≠ call_uuid →
      get_call_mapping k (plivo_hangup_handler call_uuid m).1 = get_call_mapping k m) ∧
    (plivo_hangup_handler call_uuid m).2 = "received" :=
  ⟨get_remove_self _ _ h, fun _ hk => get_remove_other _ _ _ hk, rfl⟩

/-- Concrete instantiation of `hangup_removes_only_uuid_key`: after hanging up
`"u1"`, `get("u1")` reports `NotFound` while the same call's phone-number key
still resolves, and the acknowledgment is returned. -/
theorem hangup_removes_only_uuid_key_witness :
    get_call_mapping "u1"
      (plivo_hangup_handler "u1"
        [("u1", ⟨"sip:a@b", "+15550001"⟩), ("+15550001", ⟨"sip:a@b", "+15550001"⟩)]).1 =
      none ∧
    get_call_mapping "+15550001"
      (plivo_hangup_handler "u1"
        [("u1", ⟨"sip:a@b", "+15550001"⟩), ("+15550001", ⟨"sip:a@b", "+15550001"⟩)]).1 =
      some ⟨"sip:a@b", "+15550001"⟩ ∧
    (plivo_hangup_handler "u1"
      [("u1", ⟨"sip:a@b", "+15550001"⟩), ("+15550001", ⟨"sip:a@b", "+15550001"⟩)]).2 =
      "received" := by
  have h := hangup_removes_only_uuid_key
    [("u1", ⟨"sip:a@b", "+15550001"⟩), ("+15550001", ⟨"sip:a@b", "+15550001"⟩)] "u1"
    (by decide)
  exact ⟨h.1, by rw [h.2.1 "+15550001" (by decide)]; rfl, h.2.2⟩

/-- Claim C6: in every successful outbound-call run the stages are strictly
ordered — room creation, token minting, SIP-URI lookup, then the agent launch
and its long (5-second) settling delay, then the carrier place-call request,
and only after that request returns do the IdentityMap writes occur (the
trailing trace events are exclusively map writes). -/
theorem outbound_success_stage_ordering (env : OutboundEnv)
    (phone_number? : Option String) (m : IdentityMap)
    (message room_url room_name : String)
    (h : (handle_outbound_call env phone_number? m).1 =
      OutboundResult.success message room_url room_name) :
    ∃ writes,
      (handle_outbound_call env phone_number? m).2.1 =
        [Ev.createRoom, Ev.mintToken, Ev.getSipUri, Ev.launchBot, Ev.settle 5,
         Ev.placeCall] ++ writes ∧
      ∀ e ∈ writes, ∃ k, e = Ev.mapWrite k := by
  revert h
  simp only [handle_outbound_call]
  repeat' split
  all_goals intro h
  all_goals first
    | exact OutboundResult.noConfusion h
    | (refine ⟨_, rfl, ?_⟩; intro e he; simp only [List.mem_cons, List.not_mem_nil,
        or_false] at he; rcases he with rfl | rfl | rfl <;> exact ⟨_, rfl⟩)

/-- Concrete instantiation of `outbound_success_stage_ordering` at an
environment where every collaborator call succeeds. -/
theorem outbound_success_stage_ordering_witness :
    ∃ writes,
      (handle_outbound_call
        ⟨some ⟨"https://r/x", "x"⟩, TokenResult.token "tok", some "sip:x@y",
         "/app/bot.py", true, true, "", true, some (some "uu"), ""⟩
        (some "+15551230000") []).2.1 =
        [Ev.createRoom, Ev.mintToken, Ev.getSipUri, Ev.launchBot, Ev.settle 5,
         Ev.placeCall] ++ writes ∧
      ∀ e ∈ writes, ∃ k, e = Ev.mapWrite k :=
  outbound_success_stage_ordering
    ⟨some ⟨"https://r/x", "x"⟩, TokenResult.token "tok", some "sip:x@y",
     "/app/bot.py", true, true, "", true, some (some "uu"), ""⟩
    (some "+15551230000") [] "Outbound call initiated to +15551230000" "https://r/x" "x"
    rfl

/-- Claim C7 (code bug): for an outbound-call request without a
`phone_number`, the internally raised 400 client error is swallowed by the
handler's own catch-all `except Exception` and re-raised as a 500 server
error, so the response is NOT a client-error response; no room is created
(empty trace), no IdentityMap entry is written, and no agent is launched. -/
theorem outbound_missing_number_returns_500 (env : OutboundEnv) (m : IdentityMap) :
    handle_outbound_call env none m =
      (OutboundResult.httpError 500
        "Error processing outbound call: 400: Missing required parameter: phone_number",
       [], m) ∧
    handle_outbound_call env (some "") m =
      (OutboundResult.httpError 500
        "Error processing outbound call: 400: Missing required parameter: phone_number",
       [], m) :=
  ⟨rfl, rfl⟩

/-- Claim C8: the end-to-end inbound scenario.  With the mocked room
`{url: "https://r/x", name: "x"}`, token `"tok"`, SIP URI `"sip:x@y"` and the
inbound fields `CallUUID="u1"`, `From="+1555000"`, `To="+1555999"`, the
handler answers with the dial document whose caller identity is `"+1555000"`
and whose SIP destination is `"sip:x@y"`, and the record
`{sipURI: "sip:x@y", phoneNumber: "+1555000"}` is stored under the call UUID
and under the caller's number both with and without the leading `+`. -/
theorem inbound_end_to_end_scenario (m : IdentityMap) (bot_exists spawn_ok : Bool) :
    (handle_inbound_call (inbound_demo_env bot_exists spawn_ok)
        "u1" "+1555000" "+1555999" m).1 =
      dial_xml "+1555000" "sip:x@y" ∧
    get_call_mapping "u1"
      (handle_inbound_call (inbound_demo_env bot_exists spawn_ok)
        "u1" "+1555000" "+1555999" m).2.1 = some ⟨"sip:x@y", "+1555000"⟩ ∧
    get_call_mapping "+1555000"
      (handle_inbound_call (inbound_demo_env bot_exists spawn_ok)
        "u1" "+1555000" "+1555999" m).2.1 = some ⟨"sip:x@y", "+1555000"⟩ ∧
    get_call_mapping "1555000"
      (handle_inbound_call (inbound_demo_env bot_exists spawn_ok)
        "u1" "+1555000" "+1555999" m).2.1 = some ⟨"sip:x@y", "+1555000"⟩ := by
  have hred : (handle_inbound_call (inbound_demo_env bot_exists spawn_ok)
      "u1" "+1555000" "+1555999" m).2.1 =
    store_call_mapping "1555000" "sip:x@y" "+1555000"
      (store_call_mapping "+1555000" "sip:x@y" "+1555000"
        (store_call_mapping "u1" "sip:x@y" "+1555000" m)) := rfl
  refine ⟨rfl, ?_, ?_, ?_⟩
  · rw [hred, get_store_other _ _ _ _ _ (by decide), get_store_other _ _ _ _ _ (by decide),
      get_store_self]
  · rw [hred, get_store_other _ _ _ _ _ (by decide), get_store_self]
  · rw [hred, get_store_self]

/-- Claim C9: if the outbound flow fails at any stage, the IdentityMap is
left unchanged by that run and its trace contains no map write — every map
write in the outbound flow occurs only after the carrier place-call request
has returned successfully. -/
theorem outbound_failure_leaves_map_unchanged (env : OutboundEnv)
    (phone_number? : Option String) (m : IdentityMap) (status : Nat) (detail : String)
    (h : (handle_outbound_call env phone_number? m).1 =
      OutboundResult.httpError status detail) :
    (handle_outbound_call env phone_number? m).2.2 = m ∧
    ∀ k, Ev.mapWrite k ∉ (handle_outbound_call env phone_number? m).2.1 := by
  revert h
  simp only [handle_outbound_call]
  repeat' split
  all_goals intro h
  all_goals first
    | exact OutboundResult.noConfusion h
    | (refine ⟨rfl, ?_⟩; intro k hk; simp at hk)

/-- Concrete instantiation of `outbound_failure_leaves_map_unchanged` at an
environment where room creation fails. -/
theorem outbound_failure_leaves_map_unchanged_witness :
    (handle_outbound_call
      ⟨none, TokenResult.token "tok", some "sip:x@y", "/app/bot.py", true, true, "",
       true, some (some "uu"), ""⟩
      (some "+15551230000") [("k0", ⟨"sip:z", "+15550002"⟩)]).2.2 =
      [("k0", ⟨"sip:z", "+15550002"⟩)] ∧
    ∀ k, Ev.mapWrite k ∉
      (handle_outbound_call
        ⟨none, TokenResult.token "tok", some "sip:x@y", "/app/bot.py", true, true, "",
         true, some (some "uu"), ""⟩
        (some "+15551230000") [("k0", ⟨"sip:z", "+15550002"⟩)]).2.1 :=
  outbound_failure_leaves_map_unchanged
    ⟨none, TokenResult.token "tok", some "sip:x@y", "/app/bot.py", true, true, "",
     true, some (some "uu"), ""⟩
    (some "+15551230000") [("k0", ⟨"sip:z", "+15550002"⟩)] 500
    "Error processing outbound call: 500: Failed to create Daily room" rfl

/-- Claim C10: when any of `call_id`, `sip_uri`, `phone_number` is missing or
falsy, the `/store-call-mapping` endpoint answers with a 500 server error
(the internally raised 400 caught and re-raised as 500) and the IdentityMap
is unchanged; when all three are present and truthy the record is written
under `call_id` and the success body carrying `call_id` is returned. -/
theorem store_endpoint_behavior (call_id sip_uri phone_number : Option String)
    (m : IdentityMap) :
    ((field_truthy call_id && field_truthy sip_uri && field_truthy phone_number) = false →
      store_call_mapping_endpoint call_id sip_uri phone_number m =
        (StoreEndpointResult.httpError 500 "400: Missing required fields", m)) ∧
    (∀ ci su pn, call_id = some ci → sip_uri = some su → phone_number = some pn →
      ci ≠ "" → su ≠ "" → pn ≠ "" →
      (store_call_mapping_endpoint call_id sip_uri phone_number m).1 =
        StoreEndpointResult.ok ci ∧
      (store_call_mapping_endpoint call_id sip_uri phone_number m).2 =
        store_call_mapping ci su pn m ∧
      get_call_mapping ci (store_call_mapping_endpoint call_id sip_uri phone_number m).2 =
        some ⟨su, pn⟩) := by
  constructor
  · intro hfalse
    simp [store_call_mapping_endpoint, hfalse]
  · rintro ci su pn rfl rfl rfl hci hsu hpn
    have hcond : (field_truthy (some ci) && field_truthy (some su) &&
        field_truthy (some pn)) = true := by
      simp [field_truthy, hci, hsu, hpn]
    refine ⟨?_, ?_, ?_⟩
    · simp [store_call_mapping_endpoint, hcond]
    · simp [store_call_mapping_endpoint, hcond]
    · simp [store_call_mapping_endpoint, hcond, get_store_self]

/-- Concrete instantiation of `store_endpoint_behavior`: a request missing
`call_id` gets the 500 with unchanged map, and a complete request stores the
record under its `call_id`. -/
theorem store_endpoint_behavior_witness :
    store_call_mapping_endpoint none (some "sip:q@w") (some "+15557") [] =
      (StoreEndpointResult.httpError 500 "400: Missing required fields", []) ∧
    (store_call_mapping_endpoint (some "c1") (some "sip:q@w") (some "+15557") []).1 =
      StoreEndpointResult.ok "c1" ∧
    get_call_mapping "c1"
      (store_call_mapping_endpoint (some "c1") (some "sip:q@w") (some "+15557") []).2 =
      some ⟨"sip:q@w", "+15557"⟩ := by
  refine ⟨(store_endpoint_behavior none (some "sip:q@w") (some "+15557") []).1 (by decide),
    ?_, ?_⟩
  · exact ((store_endpoint_behavior (some "c1") (some "sip:q@w") (some "+15557") []).2
      "c1" "sip:q@w" "+15557" rfl rfl rfl (by decide) (by decide) (by decide)).1
  · exact ((store_endpoint_behavior (some "c1") (some "sip:q@w") (some "+15557") []).2
      "c1" "sip:q@w" "+15557" rfl rfl rfl (by decide) (by decide) (by decide)).2.2
